import Mathlib

/-!
Shallow embedding of the HAND weather-forecasting pipeline
(`src/predicts.py` and `src/app.py`).

Numeric weather values are modelled as rationals (`ℚ`); Python dicts of
per-variable forecasts are modelled as association lists from variable
names to `FPoint` records.  Pure functions of the source are translated
directly; the external Prophet library (model fitting / prediction) is
abstracted as function parameters, since only its option-shaped success
or failure matters to the control flow being verified.
-/

namespace HAND

/-- One entry of the `forecasts` dict built in `main` of `predicts.py`:
`{'value': ..., 'confidence_lower': ..., 'confidence_upper': ...}`. -/
structure FPoint where
  value : ℚ
  confidence_lower : ℚ
  confidence_upper : ℚ
deriving DecidableEq

/-- `forecasts.get(key, {}).get('value', default)`: the forecasts dict maps a
variable name to a dict that always carries `'value'` when present, so the
default is used exactly when the variable is absent. -/
def getVal (fs : List (String × FPoint)) (key : String) (default : ℚ) : ℚ :=
  match fs.lookup key with
  | some p => p.value
  | none => default

/-! ## calculate_wscore (predicts.py lines 324-376) -/

/-- Temperature block of `calculate_wscore`: the if/elif chain updating
`score` via `max`. -/
def tempStep (score : ℕ) (temp : ℚ) : ℕ :=
  if temp < -10 ∨ temp > 35 then max score 5
  else if temp < -5 ∨ temp > 30 then max score 4
  else if temp < 0 ∨ temp > 25 then max score 3
  else if temp < 10 ∨ temp > 20 then max score 2
  else score

/-- Humidity block of `calculate_wscore`. -/
def humStep (score : ℕ) (humidity : ℚ) : ℕ :=
  if humidity > 85 then max score 4
  else if humidity > 70 then max score 3
  else if humidity < 20 then max score 3
  else score

/-- Wind block of `calculate_wscore`. -/
def windStep (score : ℕ) (wind : ℚ) : ℕ :=
  if wind > 15 then max score 5
  else if wind > 10 then max score 4
  else if wind > 7 then max score 3
  else score

/-- Precipitation block of `calculate_wscore`. -/
def precipStep (score : ℕ) (precip : ℚ) : ℕ :=
  if precip > 200 then max score 5
  else if precip > 100 then max score 4
  else if precip > 50 then max score 3
  else score

/-- Snow block of `calculate_wscore`. -/
def snowStep (score : ℕ) (snow : ℚ) : ℕ :=
  if snow > 200 then max score 5
  else if snow > 100 then max score 4
  else if snow > 50 then max score 3
  else score

/-- Core of `calculate_wscore` on the five extracted values: `score = 1`,
then the five threshold blocks in source order, then `min(score, 5)`. -/
def wscoreOf (temp humidity wind precip snow : ℚ) : ℕ :=
  min (snowStep (precipStep (windStep (humStep (tempStep 1 temp) humidity) wind) precip) snow) 5

/-- `calculate_wscore(forecasts)` of `predicts.py`: extracts each dimension
with its neutral default and runs the threshold blocks. -/
def calculate_wscore (fs : List (String × FPoint)) : ℕ :=
  wscoreOf (getVal fs "temperature" 20) (getVal fs "humidity" 50)
    (getVal fs "wind_speed" 3) (getVal fs "precipitation" 0)
    (getVal fs "snow_water" 0)

/-! Severity tiers per dimension: the tier a single block would assign on
its own (starting from score 1). -/

/-- Temperature severity tier (1-5) read off the thresholds of the
temperature block. -/
def tempTier (temp : ℚ) : ℕ :=
  if temp < -10 ∨ temp > 35 then 5
  else if temp < -5 ∨ temp > 30 then 4
  else if temp < 0 ∨ temp > 25 then 3
  else if temp < 10 ∨ temp > 20 then 2
  else 1

/-- Humidity severity tier. -/
def humTier (humidity : ℚ) : ℕ :=
  if humidity > 85 then 4
  else if humidity > 70 then 3
  else if humidity < 20 then 3
  else 1

/-- Wind severity tier. -/
def windTier (wind : ℚ) : ℕ :=
  if wind > 15 then 5
  else if wind > 10 then 4
  else if wind > 7 then 3
  else 1

/-- Precipitation severity tier. -/
def precipTier (precip : ℚ) : ℕ :=
  if precip > 200 then 5
  else if precip > 100 then 4
  else if precip > 50 then 3
  else 1

/-- Snow severity tier. -/
def snowTier (snow : ℚ) : ℕ :=
  if snow > 200 then 5
  else if snow > 100 then 4
  else if snow > 50 then 3
  else 1

/-! ## get_comfort_description (predicts.py lines 378-412) -/

/-- The `comfort_levels` dict of `get_comfort_description`, with its
`.get(wscore, default)` fallback. -/
def comfort_levels (wscore : ℕ) : String :=
  match wscore with
  | 1 => "😊 EXCELLENT - very comfortable conditions"
  | 2 => "🙂 GOOD - comfortable conditions"
  | 3 => "😐 MODERATE - average comfort conditions"
  | 4 => "😟 UNCOMFORTABLE - uncomfortable conditions"
  | 5 => "😨 CRITICAL - very uncomfortable conditions"
  | _ => "😐 Moderate conditions"

/-- `get_comfort_description(wscore, forecasts)`: returns the main
description for the score together with the list of specific-condition
callouts.  (The source also reads `humidity` but never uses it.) -/
def get_comfort_description (wscore : ℕ) (fs : List (String × FPoint)) :
    String × List String :=
  let temp := getVal fs "temperature" 20
  let wind := getVal fs "wind_speed" 3
  let descriptions :=
    (if temp > 35 then ["🔥 VERY HOT conditions"]
     else if temp > 30 then ["🌡️ Hot conditions"]
     else if temp < -10 then ["❄️ VERY COLD conditions"]
     else if temp < -5 then ["🥶 Cold conditions"]
     else []) ++
    (if wind > 15 then ["💨 VERY WINDY conditions"]
     else if wind > 10 then ["💨 Windy conditions"]
     else [])
  (comfort_levels wscore, descriptions)

/-! ## analyze_weather_risks (predicts.py lines 414-471) -/

/-- The twelve risk flags `analyze_weather_risks` can append, one
constructor per (hazard family, severity) pair. -/
inductive Risk where
  | floodHigh | floodMod
  | droughtHigh | droughtMod
  | frostHigh | frostMod
  | heatHigh | heatMod
  | snowHigh | snowMod
  | windHigh | windMod
deriving DecidableEq, Fintype

/-- The literal `(title, message)` tuple the source appends for each flag. -/
def riskMessage : Risk → String × String
  | .floodHigh => ("🔴 HIGH FLOOD RISK", "Extreme monthly precipitation - high flood probability")
  | .floodMod => ("🟡 MODERATE FLOOD RISK", "High monthly precipitation - possible local floods")
  | .droughtHigh => ("🔴 DROUGHT RISK", "Long-term lack of precipitation - critically low levels")
  | .droughtMod => ("🟡 PRECIPITATION DEFICIT", "Low precipitation - possible water supply issues")
  | .frostHigh => ("🔴 EXTREME FROST", "Dangerously low temperature - infrastructure risk")
  | .frostMod => ("🟡 STRONG FROST", "Low temperature - agriculture risk")
  | .heatHigh => ("🔴 EXTREME HEAT", "Dangerously high temperature - health risk")
  | .heatMod => ("🟡 HEAT", "High temperature - risk of overheating")
  | .snowHigh => ("🔴 EXTREME SNOWFALL", "Massive snow cover - transportation disruptions")
  | .snowMod => ("🟡 HEAVY SNOWFALL", "Significant snowfall - possible complications")
  | .windHigh => ("🔴 HURRICANE WINDS", "Extremely strong wind - dangerous!")
  | .windMod => ("🟡 STRONG WIND", "Powerful wind gusts - be careful!")

/-- `historical_data['precipitation'].tail(6).mean() < c`: the mean of the
last six rows of the precipitation column compared against `c`.  Pandas
returns NaN for the mean of an empty selection and `NaN < c` is false, so
an empty history yields `false`.  (Rows are modelled as ℚ: after the
forward-fill of `process_all_files` the column has no missing cells
except possibly leading ones.) -/
def tail6mean_lt (xs : List ℚ) (c : ℚ) : Bool :=
  let t := xs.drop (xs.length - 6)
  if t.isEmpty then false else decide (t.sum / (t.length : ℚ) < c)

/-- Flood block of `analyze_weather_risks` (if/elif, so at most one flag). -/
def flood_risks (precip : ℚ) : List Risk :=
  if precip > 300 then [.floodHigh]
  else if precip > 150 then [.floodMod]
  else []

/-- Drought block: high severity needs the low forecast AND the low
trailing 6-month historical mean; the elif gives the deficit flag on the
low forecast alone. -/
def drought_risks (precip : ℚ) (histPrecip : List ℚ) : List Risk :=
  if precip < 20 ∧ tail6mean_lt histPrecip 30 then [.droughtHigh]
  else if precip < 40 then [.droughtMod]
  else []

/-- Frost block. -/
def frost_risks (temp : ℚ) : List Risk :=
  if temp < -15 then [.frostHigh]
  else if temp < -5 then [.frostMod]
  else []

/-- Heat block. -/
def heat_risks (temp : ℚ) : List Risk :=
  if temp > 35 then [.heatHigh]
  else if temp > 30 then [.heatMod]
  else []

/-- Heavy-snow block. -/
def snow_risks (snow : ℚ) : List Risk :=
  if snow > 500 then [.snowHigh]
  else if snow > 200 then [.snowMod]
  else []

/-- Strong-wind block. -/
def wind_risks (wind : ℚ) : List Risk :=
  if wind > 20 then [.windHigh]
  else if wind > 15 then [.windMod]
  else []

/-- Body of `analyze_weather_risks` on the four extracted forecast values:
the sequence of flags appended to `risks`, in source order: flood,
drought, frost, heat, snow, wind. -/
def analyzeVals (precip_forecast temp_forecast wind_forecast snow_forecast : ℚ)
    (histPrecip : List ℚ) : List Risk :=
  flood_risks precip_forecast ++ drought_risks precip_forecast histPrecip ++
    frost_risks temp_forecast ++ heat_risks temp_forecast ++
    snow_risks snow_forecast ++ wind_risks wind_forecast

/-- `analyze_weather_risks(forecasts, historical_data, target_date)`:
extracts each dimension (the defaults here are 0 for every dimension,
unlike `calculate_wscore`) and runs the six hazard blocks.  `target_date`
is unused by the source body. -/
def analyzeRisks (fs : List (String × FPoint)) (histPrecip : List ℚ) : List Risk :=
  analyzeVals (getVal fs "precipitation" 0) (getVal fs "temperature" 0)
    (getVal fs "wind_speed" 0) (getVal fs "snow_water" 0) histPrecip

/-- The returned `risks` list of `(title, message)` string pairs. -/
def analyze_weather_risks (fs : List (String × FPoint)) (histPrecip : List ℚ) :
    List (String × String) :=
  (analyzeRisks fs histPrecip).map riskMessage

/-- Hazard-family index of a flag: flood 0, drought 1, frost 2, heat 3,
snow 4, wind 5 - the order the source appends them in. -/
def famIdx : Risk → ℕ
  | .floodHigh | .floodMod => 0
  | .droughtHigh | .droughtMod => 1
  | .frostHigh | .frostMod => 2
  | .heatHigh | .heatMod => 3
  | .snowHigh | .snowMod => 4
  | .windHigh | .windMod => 5

/-! ## Lemmas about calculate_wscore -/

theorem tempStep_eq (n : ℕ) (t : ℚ) (hn : 1 ≤ n) : tempStep n t = max n (tempTier t) := by
  unfold tempStep tempTier; split_ifs <;> omega

theorem humStep_eq (n : ℕ) (h : ℚ) (hn : 1 ≤ n) : humStep n h = max n (humTier h) := by
  unfold humStep humTier; split_ifs <;> omega

theorem windStep_eq (n : ℕ) (w : ℚ) (hn : 1 ≤ n) : windStep n w = max n (windTier w) := by
  unfold windStep windTier; split_ifs <;> omega

theorem precipStep_eq (n : ℕ) (p : ℚ) (hn : 1 ≤ n) : precipStep n p = max n (precipTier p) := by
  unfold precipStep precipTier; split_ifs <;> omega

theorem snowStep_eq (n : ℕ) (s : ℚ) (hn : 1 ≤ n) : snowStep n s = max n (snowTier s) := by
  unfold snowStep snowTier; split_ifs <;> omega

theorem tempTier_bounds (t : ℚ) : 1 ≤ tempTier t ∧ tempTier t ≤ 5 := by
  unfold tempTier; split_ifs <;> omega

theorem humTier_bounds (h : ℚ) : 1 ≤ humTier h ∧ humTier h ≤ 5 := by
  unfold humTier; split_ifs <;> omega

theorem windTier_bounds (w : ℚ) : 1 ≤ windTier w ∧ windTier w ≤ 5 := by
  unfold windTier; split_ifs <;> omega

theorem precipTier_bounds (p : ℚ) : 1 ≤ precipTier p ∧ precipTier p ≤ 5 := by
  unfold precipTier; split_ifs <;> omega

theorem snowTier_bounds (s : ℚ) : 1 ≤ snowTier s ∧ snowTier s ≤ 5 := by
  unfold snowTier; split_ifs <;> omega

/-- The score computed by the sequential max-updates is the maximum of the
five per-dimension severity tiers. -/
theorem wscoreOf_eq_max (t h w p s : ℚ) :
    wscoreOf t h w p s =
      max (max (max (max (tempTier t) (humTier h)) (windTier w)) (precipTier p)) (snowTier s) := by
  have l1 : (1 : ℕ) ≤ max 1 (tempTier t) := le_max_left 1 _
  have l2 : (1 : ℕ) ≤ max (max 1 (tempTier t)) (humTier h) := le_trans l1 (le_max_left _ _)
  have l3 : (1 : ℕ) ≤ max (max (max 1 (tempTier t)) (humTier h)) (windTier w) :=
    le_trans l2 (le_max_left _ _)
  have l4 : (1 : ℕ) ≤ max (max (max (max 1 (tempTier t)) (humTier h)) (windTier w)) (precipTier p) :=
    le_trans l3 (le_max_left _ _)
  have b1 := tempTier_bounds t
  have b2 := humTier_bounds h
  have b3 := windTier_bounds w
  have b4 := precipTier_bounds p
  have b5 := snowTier_bounds s
  unfold wscoreOf
  rw [tempStep_eq 1 t le_rfl, humStep_eq _ h l1, windStep_eq _ w l2, precipStep_eq _ p l3,
    snowStep_eq _ s l4]
  omega

/-- C5: for every forecast map, `calculate_wscore` is the worst-dimension
maximum of the per-dimension severity tiers, always lies in {1..5}, and
raising the severity tier of any single dimension while holding the
others fixed never decreases the score (e.g. temperature 22 → 36 raises
the temperature tier). -/
theorem C5_wscore_monotone_max :
    ∀ (fs : List (String × FPoint)) (t h w p s t2 h2 w2 p2 s2 : ℚ),
      calculate_wscore fs =
        wscoreOf (getVal fs "temperature" 20) (getVal fs "humidity" 50)
          (getVal fs "wind_speed" 3) (getVal fs "precipitation" 0)
          (getVal fs "snow_water" 0) ∧
      wscoreOf t h w p s =
        max (max (max (max (tempTier t) (humTier h)) (windTier w)) (precipTier p))
          (snowTier s) ∧
      1 ≤ wscoreOf t h w p s ∧ wscoreOf t h w p s ≤ 5 ∧
      (tempTier t ≤ tempTier t2 → wscoreOf t h w p s ≤ wscoreOf t2 h w p s) ∧
      (humTier h ≤ humTier h2 → wscoreOf t h w p s ≤ wscoreOf t h2 w p s) ∧
      (windTier w ≤ windTier w2 → wscoreOf t h w p s ≤ wscoreOf t h w2 p s) ∧
      (precipTier p ≤ precipTier p2 → wscoreOf t h w p s ≤ wscoreOf t h w p2 s) ∧
      (snowTier s ≤ snowTier s2 → wscoreOf t h w p s ≤ wscoreOf t h w p s2) ∧
      tempTier 22 ≤ tempTier 36 := by
  intro fs t h w p s t2 h2 w2 p2 s2
  have b1 := tempTier_bounds t
  have b2 := humTier_bounds h
  have b3 := windTier_bounds w
  have b4 := precipTier_bounds p
  have b5 := snowTier_bounds s
  refine ⟨rfl, wscoreOf_eq_max t h w p s, ?_, ?_, fun hm => ?_, fun hm => ?_, fun hm => ?_,
    fun hm => ?_, fun hm => ?_, by decide⟩
  · rw [wscoreOf_eq_max]
    exact le_trans b1.1 (le_trans (le_max_left _ _) (le_trans (le_max_left _ _)
      (le_trans (le_max_left _ _) (le_max_left _ _))))
  · rw [wscoreOf_eq_max]
    exact max_le (max_le (max_le (max_le b1.2 b2.2) b3.2) b4.2) b5.2
  · rw [wscoreOf_eq_max, wscoreOf_eq_max]
    exact max_le_max (max_le_max (max_le_max (max_le_max hm le_rfl) le_rfl) le_rfl) le_rfl
  · rw [wscoreOf_eq_max, wscoreOf_eq_max]
    exact max_le_max (max_le_max (max_le_max (max_le_max le_rfl hm) le_rfl) le_rfl) le_rfl
  · rw [wscoreOf_eq_max, wscoreOf_eq_max]
    exact max_le_max (max_le_max (max_le_max le_rfl hm) le_rfl) le_rfl
  · rw [wscoreOf_eq_max, wscoreOf_eq_max]
    exact max_le_max (max_le_max le_rfl hm) le_rfl
  · rw [wscoreOf_eq_max, wscoreOf_eq_max]
    exact max_le_max le_rfl hm

/-- Witness for `C5_wscore_monotone_max`: raising temperature from 22 to 36
with the other dimensions at their neutral defaults does not decrease the
score. -/
theorem C5_wscore_monotone_max_witness : wscoreOf 22 50 3 0 0 ≤ wscoreOf 36 50 3 0 0 :=
  (C5_wscore_monotone_max [] 22 50 3 0 0 36 50 3 0 0).2.2.2.2.1 (by decide)

/-! ## The neutral-default scenario (spec §8) -/

/-- The forecast map of the spec's neutral-default scenario: temperature
22, humidity 50, wind 3, precipitation 0, snow water 0 (intervals
degenerate at the point value; they are not read by the scorers). -/
def neutralFs : List (String × FPoint) :=
  [("temperature", ⟨22, 22, 22⟩), ("humidity", ⟨50, 50, 50⟩), ("wind_speed", ⟨3, 3, 3⟩),
   ("precipitation", ⟨0, 0, 0⟩), ("snow_water", ⟨0, 0, 0⟩)]

/-- C1 counterexample: on the neutral-default scenario the code returns
comfort score 2 (not 1, since 22 > 20 crosses the tier-2 temperature
threshold), and the risk list is non-empty (precipitation 0 < 40 always
yields a drought-family flag), here with a trailing history of 100s. -/
theorem C1_counterexample :
    calculate_wscore neutralFs ≠ 1 ∧
    analyze_weather_risks neutralFs [100, 100, 100, 100, 100, 100] ≠ [] := by
  constructor
  · decide
  · have hp : getVal neutralFs "precipitation" 0 = 0 := rfl
    have ht : getVal neutralFs "temperature" 0 = 22 := rfl
    have hw : getVal neutralFs "wind_speed" 0 = 3 := rfl
    have hs : getVal neutralFs "snow_water" 0 = 0 := rfl
    unfold analyze_weather_risks analyzeRisks
    rw [hp, ht, hw, hs]
    simp only [analyzeVals, flood_risks, drought_risks, frost_risks, heat_risks, snow_risks,
      wind_risks, tail6mean_lt]
    norm_num

/-- C1 as amended: on the forecast map temperature=22, humidity=50,
wind=3, precipitation=0, snow=0 the scoring stage returns comfort score 2
with the tier-2 description and no specific-condition callouts, and for
every historical series `analyze_weather_risks` returns exactly one flag:
the high-severity drought flag when the trailing 6-month historical
precipitation mean is below 30, otherwise the moderate
precipitation-deficit flag. -/
theorem C1_neutral_scenario :
    ∀ hist : List ℚ,
      calculate_wscore neutralFs = 2 ∧
      get_comfort_description (calculate_wscore neutralFs) neutralFs =
        ("🙂 GOOD - comfortable conditions", []) ∧
      analyze_weather_risks neutralFs hist =
        [riskMessage (if tail6mean_lt hist 30 then Risk.droughtHigh else Risk.droughtMod)] := by
  intro hist
  refine ⟨by decide, by decide, ?_⟩
  have hp : getVal neutralFs "precipitation" 0 = 0 := rfl
  have ht : getVal neutralFs "temperature" 0 = 22 := rfl
  have hw : getVal neutralFs "wind_speed" 0 = 3 := rfl
  have hs : getVal neutralFs "snow_water" 0 = 0 := rfl
  unfold analyze_weather_risks analyzeRisks
  rw [hp, ht, hw, hs]
  by_cases hc : tail6mean_lt hist 30
  · simp only [analyzeVals, flood_risks, drought_risks, frost_risks, heat_risks, snow_risks,
      wind_risks, hc, if_true]
    norm_num
  · simp only [analyzeVals, flood_risks, drought_risks, frost_risks, heat_risks, snow_risks,
      wind_risks, hc, if_false]
    norm_num [hc]

/-! ## Lemmas about analyze_weather_risks -/

theorem pairwise_len_le_one {α : Type} {R : α → α → Prop} {l : List α}
    (h : l.length ≤ 1) : l.Pairwise R := by
  cases l with
  | nil => exact List.Pairwise.nil
  | cons a l' =>
    cases l' with
    | nil => simp
    | cons b l'' => simp at h

theorem flood_risks_len (p : ℚ) : (flood_risks p).length ≤ 1 := by
  unfold flood_risks; split_ifs <;> simp

theorem drought_risks_len (p : ℚ) (hist : List ℚ) : (drought_risks p hist).length ≤ 1 := by
  unfold drought_risks; split_ifs <;> simp

theorem frost_risks_len (t : ℚ) : (frost_risks t).length ≤ 1 := by
  unfold frost_risks; split_ifs <;> simp

theorem heat_risks_len (t : ℚ) : (heat_risks t).length ≤ 1 := by
  unfold heat_risks; split_ifs <;> simp

theorem snow_risks_len (s : ℚ) : (snow_risks s).length ≤ 1 := by
  unfold snow_risks; split_ifs <;> simp

theorem wind_risks_len (w : ℚ) : (wind_risks w).length ≤ 1 := by
  unfold wind_risks; split_ifs <;> simp

theorem famIdx_of_mem_flood {x : Risk} {p : ℚ} (hx : x ∈ flood_risks p) : famIdx x = 0 := by
  unfold flood_risks at hx; split_ifs at hx <;> simp_all [famIdx]

theorem famIdx_of_mem_drought {x : Risk} {p : ℚ} {hist : List ℚ}
    (hx : x ∈ drought_risks p hist) : famIdx x = 1 := by
  unfold drought_risks at hx; split_ifs at hx <;> simp_all [famIdx]

theorem famIdx_of_mem_frost {x : Risk} {t : ℚ} (hx : x ∈ frost_risks t) : famIdx x = 2 := by
  unfold frost_risks at hx; split_ifs at hx <;> simp_all [famIdx]

theorem famIdx_of_mem_heat {x : Risk} {t : ℚ} (hx : x ∈ heat_risks t) : famIdx x = 3 := by
  unfold heat_risks at hx; split_ifs at hx <;> simp_all [famIdx]

theorem famIdx_of_mem_snow {x : Risk} {s : ℚ} (hx : x ∈ snow_risks s) : famIdx x = 4 := by
  unfold snow_risks at hx; split_ifs at hx <;> simp_all [famIdx]

theorem famIdx_of_mem_wind {x : Risk} {w : ℚ} (hx : x ∈ wind_risks w) : famIdx x = 5 := by
  unfold wind_risks at hx; split_ifs at hx <;> simp_all [famIdx]

theorem mem_flood_risks {x : Risk} {p : ℚ} :
    x ∈ flood_risks p ↔ (p > 300 ∧ x = .floodHigh) ∨ (¬p > 300 ∧ p > 150 ∧ x = .floodMod) := by
  unfold flood_risks; split_ifs <;> simp_all

theorem mem_drought_risks {x : Risk} {p : ℚ} {hist : List ℚ} :
    x ∈ drought_risks p hist ↔
      ((p < 20 ∧ tail6mean_lt hist 30 = true) ∧ x = .droughtHigh) ∨
      (¬(p < 20 ∧ tail6mean_lt hist 30 = true) ∧ p < 40 ∧ x = .droughtMod) := by
  unfold drought_risks; split_ifs <;> simp_all

theorem mem_frost_risks {x : Risk} {t : ℚ} :
    x ∈ frost_risks t ↔ (t < -15 ∧ x = .frostHigh) ∨ (¬t < -15 ∧ t < -5 ∧ x = .frostMod) := by
  unfold frost_risks; split_ifs <;> simp_all

theorem mem_heat_risks {x : Risk} {t : ℚ} :
    x ∈ heat_risks t ↔ (t > 35 ∧ x = .heatHigh) ∨ (¬t > 35 ∧ t > 30 ∧ x = .heatMod) := by
  unfold heat_risks; split_ifs <;> simp_all

theorem mem_snow_risks {x : Risk} {s : ℚ} :
    x ∈ snow_risks s ↔ (s > 500 ∧ x = .snowHigh) ∨ (¬s > 500 ∧ s > 200 ∧ x = .snowMod) := by
  unfold snow_risks; split_ifs <;> simp_all

theorem mem_wind_risks {x : Risk} {w : ℚ} :
    x ∈ wind_risks w ↔ (w > 20 ∧ x = .windHigh) ∨ (¬w > 20 ∧ w > 15 ∧ x = .windMod) := by
  unfold wind_risks; split_ifs <;> simp_all

theorem mem_analyzeVals {x : Risk} {p t w s : ℚ} {hist : List ℚ} :
    x ∈ analyzeVals p t w s hist ↔
      x ∈ flood_risks p ∨ x ∈ drought_risks p hist ∨ x ∈ frost_risks t ∨
      x ∈ heat_risks t ∨ x ∈ snow_risks s ∨ x ∈ wind_risks w := by
  simp [analyzeVals, List.mem_append, or_assoc]

theorem analyzeVals_pairwise (p t w s : ℚ) (hist : List ℚ) :
    (analyzeVals p t w s hist).Pairwise (fun a b => famIdx a < famIdx b) := by
  have m2 : ∀ a ∈ flood_risks p ++ drought_risks p hist, famIdx a ≤ 1 := by
    intro a ha
    rcases List.mem_append.1 ha with h | h
    · simp [famIdx_of_mem_flood h]
    · simp [famIdx_of_mem_drought h]
  have m3 : ∀ a ∈ flood_risks p ++ drought_risks p hist ++ frost_risks t, famIdx a ≤ 2 := by
    intro a ha
    rcases List.mem_append.1 ha with h | h
    · have := m2 a h; omega
    · simp [famIdx_of_mem_frost h]
  have m4 : ∀ a ∈ flood_risks p ++ drought_risks p hist ++ frost_risks t ++ heat_risks t,
      famIdx a ≤ 3 := by
    intro a ha
    rcases List.mem_append.1 ha with h | h
    · have := m3 a h; omega
    · simp [famIdx_of_mem_heat h]
  have m5 : ∀ a ∈ flood_risks p ++ drought_risks p hist ++ frost_risks t ++ heat_risks t ++
      snow_risks s, famIdx a ≤ 4 := by
    intro a ha
    rcases List.mem_append.1 ha with h | h
    · have := m4 a h; omega
    · simp [famIdx_of_mem_snow h]
  unfold analyzeVals
  rw [List.pairwise_append]
  refine ⟨?_, pairwise_len_le_one (wind_risks_len w), fun a ha b hb => ?_⟩
  case refine_2 =>
    have h1 := m5 a ha
    have h2 := famIdx_of_mem_wind hb
    omega
  rw [List.pairwise_append]
  refine ⟨?_, pairwise_len_le_one (snow_risks_len s), fun a ha b hb => ?_⟩
  case refine_2 =>
    have h1 := m4 a ha
    have h2 := famIdx_of_mem_snow hb
    omega
  rw [List.pairwise_append]
  refine ⟨?_, pairwise_len_le_one (heat_risks_len t), fun a ha b hb => ?_⟩
  case refine_2 =>
    have h1 := m3 a ha
    have h2 := famIdx_of_mem_heat hb
    omega
  rw [List.pairwise_append]
  refine ⟨?_, pairwise_len_le_one (frost_risks_len t), fun a ha b hb => ?_⟩
  case refine_2 =>
    have h1 := m2 a ha
    have h2 := famIdx_of_mem_frost hb
    omega
  rw [List.pairwise_append]
  refine ⟨pairwise_len_le_one (flood_risks_len p), pairwise_len_le_one (drought_risks_len p hist),
    fun a ha b hb => ?_⟩
  have h1 := famIdx_of_mem_flood ha
  have h2 := famIdx_of_mem_drought hb
  omega

theorem riskMessage_injective : Function.Injective riskMessage := by
  intro a b hab
  cases a <;> cases b <;> simp_all [riskMessage]

/-- C8: the risk list is the six hazard blocks in order flood, drought,
frost, heat, snow, wind; the flags are strictly ordered by hazard family
(hence at most one flag per family), and each flag appears exactly when
its threshold condition holds, the high threshold taking precedence over
the moderate one in each if/elif pair. -/
theorem C8_risk_flags_ordered :
    ∀ (fs : List (String × FPoint)) (hist : List ℚ) (p t w s : ℚ),
      analyze_weather_risks fs hist = (analyzeRisks fs hist).map riskMessage ∧
      analyzeRisks fs hist =
        analyzeVals (getVal fs "precipitation" 0) (getVal fs "temperature" 0)
          (getVal fs "wind_speed" 0) (getVal fs "snow_water" 0) hist ∧
      (analyzeVals p t w s hist).Pairwise (fun a b => famIdx a < famIdx b) ∧
      (Risk.floodHigh ∈ analyzeVals p t w s hist ↔ p > 300) ∧
      (Risk.floodMod ∈ analyzeVals p t w s hist ↔ ¬p > 300 ∧ p > 150) ∧
      (Risk.droughtHigh ∈ analyzeVals p t w s hist ↔ p < 20 ∧ tail6mean_lt hist 30 = true) ∧
      (Risk.droughtMod ∈ analyzeVals p t w s hist ↔
        ¬(p < 20 ∧ tail6mean_lt hist 30 = true) ∧ p < 40) ∧
      (Risk.frostHigh ∈ analyzeVals p t w s hist ↔ t < -15) ∧
      (Risk.frostMod ∈ analyzeVals p t w s hist ↔ ¬t < -15 ∧ t < -5) ∧
      (Risk.heatHigh ∈ analyzeVals p t w s hist ↔ t > 35) ∧
      (Risk.heatMod ∈ analyzeVals p t w s hist ↔ ¬t > 35 ∧ t > 30) ∧
      (Risk.snowHigh ∈ analyzeVals p t w s hist ↔ s > 500) ∧
      (Risk.snowMod ∈ analyzeVals p t w s hist ↔ ¬s > 500 ∧ s > 200) ∧
      (Risk.windHigh ∈ analyzeVals p t w s hist ↔ w > 20) ∧
      (Risk.windMod ∈ analyzeVals p t w s hist ↔ ¬w > 20 ∧ w > 15) := by
  intro fs hist p t w s
  refine ⟨rfl, rfl, analyzeVals_pairwise p t w s hist, ?_, ?_, ?_, ?_, ?_, ?_, ?_, ?_, ?_, ?_,
    ?_, ?_⟩ <;>
  · rw [mem_analyzeVals]
    simp [mem_flood_risks, mem_drought_risks, mem_frost_risks, mem_heat_risks, mem_snow_risks,
      mem_wind_risks]

/-- C3: the high-severity drought flag is emitted iff the forecast
precipitation is below 20 AND the trailing 6-month historical mean is
below 30; forecast 15 with trailing mean 25 yields the drought flag,
while forecast 35 (historical condition irrelevant) yields only the
moderate deficit flag. -/
theorem C3_drought_iff :
    ∀ (fs : List (String × FPoint)) (hist : List ℚ),
      (riskMessage .droughtHigh ∈ analyze_weather_risks fs hist ↔
        getVal fs "precipitation" 0 < 20 ∧ tail6mean_lt hist 30 = true) ∧
      riskMessage .droughtHigh ∈
        analyze_weather_risks [("precipitation", ⟨15, 15, 15⟩)] [25, 25, 25, 25, 25, 25] ∧
      analyze_weather_risks [("precipitation", ⟨35, 35, 35⟩)] [100, 100, 100, 100, 100, 100] =
        [riskMessage .droughtMod] := by
  intro fs hist
  refine ⟨?_, ?_, ?_⟩
  · unfold analyze_weather_risks analyzeRisks
    rw [List.mem_map_of_injective riskMessage_injective, mem_analyzeVals]
    simp [mem_flood_risks, mem_drought_risks, mem_frost_risks, mem_heat_risks, mem_snow_risks,
      mem_wind_risks]
  · have hp : getVal [("precipitation", (⟨15, 15, 15⟩ : FPoint))] "precipitation" 0 = 15 := rfl
    have ht : getVal [("precipitation", (⟨15, 15, 15⟩ : FPoint))] "temperature" 0 = 0 := rfl
    have hw : getVal [("precipitation", (⟨15, 15, 15⟩ : FPoint))] "wind_speed" 0 = 0 := rfl
    have hs : getVal [("precipitation", (⟨15, 15, 15⟩ : FPoint))] "snow_water" 0 = 0 := rfl
    unfold analyze_weather_risks analyzeRisks
    rw [List.mem_map_of_injective riskMessage_injective, hp, ht, hw, hs, mem_analyzeVals]
    refine Or.inr (Or.inl (mem_drought_risks.2 (Or.inl ⟨⟨by norm_num, ?_⟩, rfl⟩)))
    simp only [tail6mean_lt]
    norm_num
  · have hp : getVal [("precipitation", (⟨35, 35, 35⟩ : FPoint))] "precipitation" 0 = 35 := rfl
    have ht : getVal [("precipitation", (⟨35, 35, 35⟩ : FPoint))] "temperature" 0 = 0 := rfl
    have hw : getVal [("precipitation", (⟨35, 35, 35⟩ : FPoint))] "wind_speed" 0 = 0 := rfl
    have hs : getVal [("precipitation", (⟨35, 35, 35⟩ : FPoint))] "snow_water" 0 = 0 := rfl
    unfold analyze_weather_risks analyzeRisks
    rw [hp, ht, hw, hs]
    simp only [analyzeVals, flood_risks, drought_risks, frost_risks, heat_risks, snow_risks,
      wind_risks, tail6mean_lt]
    norm_num

/-- C9: whenever the precipitation forecast value (defaulting to 0 when
the variable is absent) is below 40, the risk list is non-empty and
contains the drought flag or the precipitation-deficit flag. -/
theorem C9_low_precip_never_riskless :
    ∀ (fs : List (String × FPoint)) (hist : List ℚ),
      getVal fs "precipitation" 0 < 40 →
      analyze_weather_risks fs hist ≠ [] ∧
      (riskMessage .droughtHigh ∈ analyze_weather_risks fs hist ∨
       riskMessage .droughtMod ∈ analyze_weather_risks fs hist) := by
  intro fs hist hp
  have hd : Risk.droughtHigh ∈ analyzeRisks fs hist ∨ Risk.droughtMod ∈ analyzeRisks fs hist := by
    by_cases hc : getVal fs "precipitation" 0 < 20 ∧ tail6mean_lt hist 30 = true
    · exact Or.inl (by
        unfold analyzeRisks
        rw [mem_analyzeVals]
        exact Or.inr (Or.inl (mem_drought_risks.2 (Or.inl ⟨hc, rfl⟩))))
    · exact Or.inr (by
        unfold analyzeRisks
        rw [mem_analyzeVals]
        exact Or.inr (Or.inl (mem_drought_risks.2 (Or.inr ⟨hc, hp, rfl⟩))))
  constructor
  · intro he
    unfold analyze_weather_risks at he
    rw [List.map_eq_nil_iff] at he
    rcases hd with h | h <;> simp [he] at h
  · rcases hd with h | h
    · exact Or.inl (List.mem_map_of_mem riskMessage h)
    · exact Or.inr (List.mem_map_of_mem riskMessage h)

/-- Witness for `C9_low_precip_never_riskless`: the empty forecast map
(precipitation absent, so it defaults to 0 < 40) with empty history. -/
theorem C9_low_precip_never_riskless_witness :
    analyze_weather_risks [] [] ≠ [] ∧
    (riskMessage .droughtHigh ∈ analyze_weather_risks [] [] ∨
     riskMessage .droughtMod ∈ analyze_weather_risks [] []) :=
  C9_low_precip_never_riskless [] [] (by norm_num [getVal])

/-! ## make_forecast_for_date (predicts.py lines 281-322) -/

/-- A calendar month `(year, month)`: the granularity at which
`make_forecast_for_date` computes its horizon from `last_date` (the max
of the `date` column) and the parsed target date. -/
structure YM where
  year : ℤ
  month : ℤ
deriving DecidableEq

/-- `months_diff = (target.year - last.year) * 12 + (target.month - last.month)`. -/
def monthsDiff (target last : YM) : ℤ :=
  (target.year - last.year) * 12 + (target.month - last.month)

/-- `make_forecast_for_date(model, df, target_date, target_column)`:
returns nothing when the model is absent or the horizon is ≤ 0;
otherwise defers to the fitted model.  The Prophet future-dataframe
construction, regressor synthesis and prediction (which can also fail,
returning nothing) are abstracted as `predict`, a function of the model
and the horizon. -/
def make_forecast_for_date {M F : Type} (predict : M → ℤ → Option F)
    (model : Option M) (last_date target : YM) : Option F :=
  match model with
  | none => none
  | some m =>
    if monthsDiff target last_date ≤ 0 then none
    else predict m (monthsDiff target last_date)

/-- C2: the forecast horizon is `(target.year − last.year)×12 +
(target.month − last.month)` whole months (last 2023-12, target 2024-06
gives 6), and a horizon ≤ 0 makes `make_forecast_for_date` yield no
forecast, whatever the model would predict. -/
theorem C2_horizon_and_rejection :
    ∀ {M F : Type} (predict : M → ℤ → Option F) (model : Option M) (last target : YM),
      monthsDiff target last = (target.year - last.year) * 12 + (target.month - last.month) ∧
      monthsDiff ⟨2024, 6⟩ ⟨2023, 12⟩ = 6 ∧
      (monthsDiff target last ≤ 0 →
        make_forecast_for_date predict model last target = none) := by
  intro M F predict model last target
  refine ⟨rfl, by decide, fun h => ?_⟩
  cases model with
  | none => rfl
  | some m => simp [make_forecast_for_date, if_pos h]

/-- Witness for `C2_horizon_and_rejection`: target equal to the last
historical month (horizon 0) is rejected even though the model would
happily predict a value. -/
theorem C2_horizon_and_rejection_witness :
    monthsDiff ⟨2023, 12⟩ ⟨2023, 12⟩ ≤ 0 ∧
    make_forecast_for_date (fun (_ : Unit) (_ : ℤ) => some (0 : ℚ)) (some ())
      ⟨2023, 12⟩ ⟨2023, 12⟩ = none :=
  ⟨by decide,
   (C2_horizon_and_rejection (fun (_ : Unit) (_ : ℤ) => some (0 : ℚ)) (some ())
      ⟨2023, 12⟩ ⟨2023, 12⟩).2.2 (by decide)⟩

/-! ## process_all_files (predicts.py lines 210-238) -/

/-- One parsed month produced by `extract_weather_data`: its resolved
date plus the (possibly missing) numeric value of a weather column.  The
dataframe manipulations of `process_all_files` treat every numeric
column alike, so a single representative column is carried. -/
structure RawRow where
  date : ℤ
  val : Option ℚ
deriving DecidableEq

/-- `df[numeric_columns].fillna(method='ffill')`: a missing cell takes
the value of the nearest preceding row; leading missing cells stay
missing. -/
def ffillRows (prev : Option ℚ) : List RawRow → List RawRow
  | [] => []
  | r :: rs =>
    let v := match r.val with
      | some x => some x
      | none => prev
    ⟨r.date, v⟩ :: ffillRows v rs

/-- `process_all_files(file_list, lat_range, lon_range)`: files whose
extraction fails contribute nothing (`if data:`), the rows are sorted by
`date` (`df.sort_values('date')` - there is no de-duplication step), and
the numeric columns are forward-filled. -/
def process_all_files (inputs : List (Option RawRow)) : List RawRow :=
  let data_list := inputs.filterMap id
  ffillRows none (data_list.insertionSort (fun a b => a.date ≤ b.date))

instance : IsTotal RawRow (fun a b => a.date ≤ b.date) :=
  ⟨fun a b => le_total a.date b.date⟩

instance : IsTrans RawRow (fun a b => a.date ≤ b.date) :=
  ⟨fun _ _ _ hab hbc => le_trans hab hbc⟩

theorem ffillRows_map_date (prev : Option ℚ) (l : List RawRow) :
    (ffillRows prev l).map RawRow.date = l.map RawRow.date := by
  induction l generalizing prev with
  | nil => rfl
  | cons r rs ih => simp [ffillRows, ih]

theorem ffillRows_length (prev : Option ℚ) (l : List RawRow) :
    (ffillRows prev l).length = l.length := by
  induction l generalizing prev with
  | nil => rfl
  | cons r rs ih => simp [ffillRows, ih]

/-- C4 counterexample: two input files resolving to the same month both
survive `process_all_files` - the months of the result are `[5, 5]`,
neither strictly increasing nor unique, and no row was dropped by any
last-write-wins de-duplication. -/
theorem C4_counterexample :
    (process_all_files [some ⟨5, some 1⟩, some ⟨5, some 2⟩]).map RawRow.date = [5, 5] ∧
    ¬((process_all_files [some ⟨5, some 1⟩, some ⟨5, some 2⟩]).map RawRow.date).Pairwise
        (· < ·) ∧
    (process_all_files [some ⟨5, some 1⟩, some ⟨5, some 2⟩]).length = 2 := by
  refine ⟨rfl, by decide, rfl⟩

/-- C4 as amended: the aggregated series is sorted ascending
(non-decreasing) by month, but duplicate months are all retained - the
row count equals the number of successfully extracted files, with no
last-write-wins de-duplication. -/
theorem C4_sorted_no_dedup :
    ∀ inputs : List (Option RawRow),
      ((process_all_files inputs).map RawRow.date).Pairwise (· ≤ ·) ∧
      (process_all_files inputs).length = (inputs.filterMap id).length := by
  intro inputs
  constructor
  · have hs := List.sorted_insertionSort (fun a b : RawRow => a.date ≤ b.date)
      (inputs.filterMap id)
    unfold process_all_files
    rw [ffillRows_map_date, List.pairwise_map]
    exact hs
  · unfold process_all_files
    rw [ffillRows_length, (List.perm_insertionSort _ _).length_eq]

/-! ## The per-variable forecasting loop and output record of main
(predicts.py lines 257-279 and 512-617) -/

/-- The external collaborators of the per-variable pipeline, abstracted:
`prep` is `prepare_prophet_data` (nothing when the column is absent or
`dropna` leaves nothing), `size` is `len(prophet_df)`, `fit` is the
Prophet construction plus `model.fit` (nothing on exception), and
`predict` is the future-dataframe construction, prediction and
target-row extraction of `make_forecast_for_date` (nothing on exception
or empty selection). -/
structure PipelineCtx (D M : Type) where
  prep : String → Option D
  size : D → ℕ
  fit : D → Option M
  predict : M → ℤ → Option FPoint
  last_date : YM

/-- The `target_parameters` list of `main`. -/
def target_parameters : List String :=
  ["temperature", "precipitation", "wind_speed", "humidity", "snow_water"]

/-- `train_prophet_model(prophet_df)`: nothing when the input is absent
or has fewer than `Config.MIN_DATA_POINTS = 12` rows, otherwise the
result of fitting (which is itself nothing on a fit exception). -/
def train_prophet_model {D M : Type} (fit : D → Option M) (size : D → ℕ)
    (prophet_df : Option D) : Option M :=
  match prophet_df with
  | none => none
  | some d => if size d < 12 then none else fit d

/-- The body of `main`'s loop for one `param`: prepare, check the
minimum-size guard, train, forecast. -/
def forecast_for {D M : Type} (ctx : PipelineCtx D M) (target : YM) (param : String) :
    Option FPoint :=
  match ctx.prep param with
  | none => none
  | some prophet_df =>
    if 12 ≤ ctx.size prophet_df then
      match train_prophet_model ctx.fit ctx.size (some prophet_df) with
      | none => none
      | some model => make_forecast_for_date ctx.predict (some model) ctx.last_date target
    else none

/-- The `forecasts` dict assembled by `main`: one entry per target
parameter whose pipeline succeeded, in `target_parameters` order. -/
def mkForecasts {D M : Type} (ctx : PipelineCtx D M) (target : YM) :
    List (String × FPoint) :=
  target_parameters.filterMap
    (fun param => (forecast_for ctx target param).map (fun d => (param, d)))

/-- One cell of the serialized forecast row: a number or a string. -/
inductive Cell where
  | num (q : ℚ)
  | str (s : String)
deriving DecidableEq

/-- The `forecast_data` dict written as the single CSV row: for each
forecast variable its point value and `_lower`/`_upper` bounds, then
`wscore` and `comfort_description`. -/
def forecast_data (forecasts : List (String × FPoint)) (wscore : ℕ)
    (comfort_desc : String) : List (String × Cell) :=
  (forecasts.flatMap fun pd =>
    [(pd.1, Cell.num pd.2.value), (pd.1 ++ "_lower", Cell.num pd.2.confidence_lower),
     (pd.1 ++ "_upper", Cell.num pd.2.confidence_upper)]) ++
  [("wscore", Cell.num (wscore : ℚ)), ("comfort_description", Cell.str comfort_desc)]

/-- The tail of `main` after aggregation: build the per-variable
forecasts; if none succeeded, fail the invocation (`return` without
writing anything); otherwise score and serialize the output record. -/
def run_main {D M : Type} (ctx : PipelineCtx D M) (target : YM) :
    Option (List (String × Cell)) :=
  let forecasts := mkForecasts ctx target
  if forecasts.isEmpty then none
  else
    let wscore := calculate_wscore forecasts
    let comfort_desc := (get_comfort_description wscore forecasts).1
    some (forecast_data forecasts wscore comfort_desc)

/-- C7: one variable's membership in the forecasts depends only on that
variable's own pipeline (so a fitting failure - absent column, fewer
than 12 usable points, or a fit exception - skips only that variable),
and the invocation fails, writing no record, exactly when zero variables
produced a forecast. -/
theorem C7_failure_isolation :
    ∀ {D M : Type} (ctx : PipelineCtx D M) (target : YM),
      (∀ (param : String) (d : FPoint),
        (param, d) ∈ mkForecasts ctx target ↔
          param ∈ target_parameters ∧ forecast_for ctx target param = some d) ∧
      (∀ (param : String) (prophet_df : D), ctx.prep param = some prophet_df →
        ctx.size prophet_df < 12 → forecast_for ctx target param = none) ∧
      (∀ (param : String) (prophet_df : D), ctx.prep param = some prophet_df →
        ctx.fit prophet_df = none → forecast_for ctx target param = none) ∧
      (run_main ctx target = none ↔ mkForecasts ctx target = []) ∧
      (mkForecasts ctx target = [] ↔
        ∀ param ∈ target_parameters, forecast_for ctx target param = none) := by
  intro D M ctx target
  refine ⟨?_, ?_, ?_, ?_, ?_⟩
  · intro param d
    simp only [mkForecasts, List.mem_filterMap, Option.map_eq_some', Prod.mk.injEq]
    constructor
    · rintro ⟨a, ha, fp, hfp, rfl, rfl⟩
      exact ⟨ha, hfp⟩
    · rintro ⟨hmem, hf⟩
      exact ⟨param, hmem, d, hf, rfl, rfl⟩
  · intro param prophet_df hprep hsize
    have hn : ¬12 ≤ ctx.size prophet_df := by omega
    simp [forecast_for, hprep, hn]
  · intro param prophet_df hprep hfit
    by_cases hs : 12 ≤ ctx.size prophet_df
    · have hn : ¬ctx.size prophet_df < 12 := by omega
      simp [forecast_for, hprep, hs, train_prophet_model, hn, hfit]
    · simp [forecast_for, hprep, hs]
  · by_cases he : mkForecasts ctx target = [] <;> simp [run_main, he]
  · simp only [mkForecasts, List.filterMap_eq_nil_iff, Option.map_eq_none']

/-- Witness for `C7_failure_isolation`: a context whose prepared series
has only 5 points yields no forecast, and one whose fit raises yields no
forecast, for the temperature variable. -/
theorem C7_failure_isolation_witness :
    forecast_for
      (⟨fun _ => some (), fun _ => 5, fun _ => some (), fun _ _ => some ⟨0, 0, 0⟩,
        ⟨2023, 12⟩⟩ : PipelineCtx Unit Unit) ⟨2024, 6⟩ "temperature" = none ∧
    forecast_for
      (⟨fun _ => some (), fun _ => 20, fun _ => none, fun _ _ => some ⟨0, 0, 0⟩,
        ⟨2023, 12⟩⟩ : PipelineCtx Unit Unit) ⟨2024, 6⟩ "temperature" = none :=
  ⟨(C7_failure_isolation
      (⟨fun _ => some (), fun _ => 5, fun _ => some (), fun _ _ => some ⟨0, 0, 0⟩,
        ⟨2023, 12⟩⟩ : PipelineCtx Unit Unit) ⟨2024, 6⟩).2.1 "temperature" () rfl (by decide),
   (C7_failure_isolation
      (⟨fun _ => some (), fun _ => 20, fun _ => none, fun _ _ => some ⟨0, 0, 0⟩,
        ⟨2023, 12⟩⟩ : PipelineCtx Unit Unit) ⟨2024, 6⟩).2.2.1 "temperature" () rfl rfl⟩

/-- Characterization of the forecasts assembled by `main`: an entry is
present exactly when its parameter is a target parameter whose own
pipeline succeeded. -/
theorem mkForecasts_mem {D M : Type} (ctx : PipelineCtx D M) (target : YM)
    (param : String) (d : FPoint) :
    (param, d) ∈ mkForecasts ctx target ↔
      param ∈ target_parameters ∧ forecast_for ctx target param = some d := by
  simp only [mkForecasts, List.mem_filterMap, Option.map_eq_some', Prod.mk.injEq]
  constructor
  · rintro ⟨a, ha, fp, hfp, rfl, rfl⟩
    exact ⟨ha, hfp⟩
  · rintro ⟨hmem, hf⟩
    exact ⟨param, hmem, d, hf, rfl, rfl⟩

theorem calculate_wscore_bounds (fs : List (String × FPoint)) :
    1 ≤ calculate_wscore fs ∧ calculate_wscore fs ≤ 5 := by
  unfold calculate_wscore
  rw [wscoreOf_eq_max]
  have b1 := tempTier_bounds (getVal fs "temperature" 20)
  have b2 := humTier_bounds (getVal fs "humidity" 50)
  have b3 := windTier_bounds (getVal fs "wind_speed" 3)
  have b4 := precipTier_bounds (getVal fs "precipitation" 0)
  have b5 := snowTier_bounds (getVal fs "snow_water" 0)
  omega

/-- A pipeline context in which only the temperature variable succeeds:
its series has 12 points, the fit succeeds, and prediction returns point
25 with interval [20, 30]. -/
def ctxC6 : PipelineCtx Unit Unit :=
  ⟨fun p => if p = "temperature" then some () else none, fun _ => 12, fun _ => some (),
   fun _ _ => some ⟨25, 20, 30⟩, ⟨2023, 12⟩⟩

/-- The record `run_main ctxC6 ⟨2024, 6⟩` writes. -/
def recC6 : List (String × Cell) :=
  [("temperature", Cell.num 25), ("temperature_lower", Cell.num 20),
   ("temperature_upper", Cell.num 30), ("wscore", Cell.num 2),
   ("comfort_description", Cell.str "🙂 GOOD - comfortable conditions")]

/-- C6 counterexample: a successful invocation in which only temperature
was forecast writes a record whose columns are only the temperature
point/interval columns plus `wscore` and `comfort_description` - in
particular neither `pressure` (never a target parameter) nor
`precipitation` appears. -/
theorem C6_counterexample :
    run_main ctxC6 ⟨2024, 6⟩ = some recC6 ∧
    recC6.map Prod.fst =
      ["temperature", "temperature_lower", "temperature_upper", "wscore",
       "comfort_description"] ∧
    "pressure" ∉ recC6.map Prod.fst ∧
    "precipitation" ∉ recC6.map Prod.fst := by
  refine ⟨?_, rfl, by decide, by decide⟩
  rfl

/-- C6 as amended: a successful invocation's record contains the point
value and `_lower`/`_upper` interval columns for each variable that
actually produced a forecast (a subset of temperature, precipitation,
wind_speed, humidity, snow_water), plus an integer `wscore` in 1-5 and a
`comfort_description` string; a `pressure` column never appears. -/
theorem C6_record_fields :
    ∀ {D M : Type} (ctx : PipelineCtx D M) (target : YM) (record : List (String × Cell)),
      run_main ctx target = some record →
      (∀ pd ∈ mkForecasts ctx target,
        (pd.1, Cell.num pd.2.value) ∈ record ∧
        (pd.1 ++ "_lower", Cell.num pd.2.confidence_lower) ∈ record ∧
        (pd.1 ++ "_upper", Cell.num pd.2.confidence_upper) ∈ record) ∧
      ("wscore", Cell.num ((calculate_wscore (mkForecasts ctx target) : ℕ) : ℚ)) ∈ record ∧
      1 ≤ calculate_wscore (mkForecasts ctx target) ∧
      calculate_wscore (mkForecasts ctx target) ≤ 5 ∧
      ("comfort_description",
        Cell.str (get_comfort_description (calculate_wscore (mkForecasts ctx target))
          (mkForecasts ctx target)).1) ∈ record ∧
      ∀ c : Cell, ("pressure", c) ∉ record := by
  intro D M ctx target record hrun
  have hrec : record =
      forecast_data (mkForecasts ctx target) (calculate_wscore (mkForecasts ctx target))
        (get_comfort_description (calculate_wscore (mkForecasts ctx target))
          (mkForecasts ctx target)).1 := by
    by_cases he : (mkForecasts ctx target).isEmpty
    · simp [run_main, he] at hrun
    · rw [Bool.not_eq_true] at he
      simp only [run_main, he, Bool.false_eq_true, if_false, Option.some.injEq] at hrun
      exact hrun.symm
  subst hrec
  refine ⟨?_, ?_, (calculate_wscore_bounds _).1, (calculate_wscore_bounds _).2, ?_, ?_⟩
  · intro pd hpd
    refine ⟨?_, ?_, ?_⟩ <;>
    · apply List.mem_append_left
      exact List.mem_flatMap.2 ⟨pd, hpd, by simp⟩
  · apply List.mem_append_right
    simp
  · apply List.mem_append_right
    simp
  · intro c hc
    rcases List.mem_append.1 hc with hf | ht
    · obtain ⟨pd, hpd, hin⟩ := List.mem_flatMap.1 hf
      have h1 : pd.1 ∈ target_parameters := by
        have hpair : (pd.1, pd.2) ∈ mkForecasts ctx target := by
          rw [Prod.mk.eta]; exact hpd
        exact ((mkForecasts_mem ctx target pd.1 pd.2).1 hpair).1
      simp only [List.mem_cons, List.not_mem_nil, or_false] at hin
      have hfst : "pressure" = pd.1 ∨ "pressure" = pd.1 ++ "_lower" ∨
          "pressure" = pd.1 ++ "_upper" := by
        rcases hin with he | he | he
        · exact Or.inl (congrArg Prod.fst he)
        · exact Or.inr (Or.inl (congrArg Prod.fst he))
        · exact Or.inr (Or.inr (congrArg Prod.fst he))
      simp only [target_parameters, List.mem_cons, List.not_mem_nil, or_false] at h1
      rcases h1 with h1 | h1 | h1 | h1 | h1 <;> rw [h1] at hfst <;> revert hfst <;> decide
    · simp only [List.mem_cons, List.not_mem_nil, or_false] at ht
      have hfst : "pressure" = "wscore" ∨ "pressure" = "comfort_description" := by
        rcases ht with he | he
        · exact Or.inl (congrArg Prod.fst he)
        · exact Or.inr (congrArg Prod.fst he)
      revert hfst
      decide

/-- Witness for `C6_record_fields` at the concrete context `ctxC6` whose
record is `recC6`. -/
theorem C6_record_fields_witness :
    ("temperature", Cell.num 25) ∈ recC6 ∧
    ("temperature_lower", Cell.num 20) ∈ recC6 ∧
    ("wscore", Cell.num ((2 : ℕ) : ℚ)) ∈ recC6 :=
  ⟨((C6_record_fields ctxC6 ⟨2024, 6⟩ recC6 rfl).1 ("temperature", ⟨25, 20, 30⟩)
      (by decide)).1,
   ((C6_record_fields ctxC6 ⟨2024, 6⟩ recC6 rfl).1 ("temperature", ⟨25, 20, 30⟩)
      (by decide)).2.1,
   (C6_record_fields ctxC6 ⟨2024, 6⟩ recC6 rfl).2.1⟩

/-! ## The console interface: the forecast lines printed by predicts.py
(lines 583-592) and `parse_output` of app.py (lines 153-181), modelled
on character lists. -/

/-- The unit suffix `main` chooses for each parameter when printing
`f"🌡️  {param}: {value:.1f} {unit}"`. -/
def unit_for (param : String) : String :=
  if param = "temperature" then "°C"
  else if param = "precipitation" then "mm/month"
  else if param = "wind_speed" then "m/s"
  else if param = "humidity" then "%"
  else if param = "snow_water" then "kg/m²"
  else ""

/-- The printed forecast line `f"🌡️  {param}: {value:.1f} {unit}"`, with
the `.1f`-formatted value abstracted as a character list. -/
def forecast_line (param valStr unit : List Char) : List Char :=
  "🌡️  ".data ++ param ++ ": ".data ++ valStr ++ " ".data ++ unit

/-- Python `str.strip()` whitespace. -/
def isSpace (c : Char) : Bool :=
  c == ' ' || c == '\t' || c == '\n' || c == '\r'

/-- Python `str.strip()`: drop whitespace from both ends. -/
def pyStrip (s : List Char) : List Char :=
  ((s.dropWhile isSpace).reverse.dropWhile isSpace).reverse

/-- Whether `p` starts the list `s`. -/
def startsWith : List Char → List Char → Bool
  | [], _ => true
  | _ :: _, [] => false
  | a :: as, b :: bs => a == b && startsWith as bs

/-- Python `s.replace(p, r)`: scan left to right, replacing each
non-overlapping occurrence of `p`.  (For empty `p` Python interleaves
`r` everywhere; the call sites only use non-empty unit suffixes, for
which this model is exact.) -/
def replaceAll (p r : List Char) : List Char → List Char
  | [] => []
  | c :: cs =>
    if h : p ≠ [] ∧ startsWith p (c :: cs) = true then
      r ++ replaceAll p r ((c :: cs).drop p.length)
    else
      c :: replaceAll p r cs
termination_by s => s.length
decreasing_by
  · simp only [List.length_drop, List.length_cons]
    have hp : 0 < p.length := List.length_pos.2 h.1
    omega
  · simp only [List.length_cons]
    omega

/-- Python `p in s` substring test. -/
def occurs (p : List Char) : List Char → Bool
  | [] => startsWith p []
  | c :: cs => startsWith p (c :: cs) || occurs p cs

/-- The unit suffixes `parse_output` strips from a value:
`['°C', 'mm/day', 'm/s', '%', 'kg/m²']` - note `mm/month` is NOT among
them. -/
def units_list : List (List Char) :=
  ["°C".data, "mm/day".data, "m/s".data, "%".data, "kg/m²".data]

/-- The unit-stripping loop of `parse_output`:
`for unit in [...]: value = value.replace(unit, '').strip()`. -/
def strip_units (value : List Char) : List Char :=
  units_list.foldl (fun acc u => pyStrip (replaceAll u [] acc)) value

def isDigitChar (c : Char) : Bool :=
  '0' ≤ c && c ≤ '9'

/-- A character that may appear in a string Python `float()` accepts
(after stripping): digits, signs, a decimal point, exponent markers,
underscore separators, or the letters of `inf`/`infinity`/`nan` in
either case. -/
def floatCharOk (c : Char) : Bool :=
  isDigitChar c ||
    c ∈ ['+', '-', '.', 'e', 'E', '_', 'i', 'n', 'f', 'a', 't', 'y', 'I', 'N', 'F', 'A', 'T', 'Y']

/-- Over-approximation of Python `float()` acceptance: every accepted
string is non-empty after stripping and consists solely of
`floatCharOk` characters.  A string that fails this test is certainly
rejected by `float()` (raising `ValueError`). -/
def floatParsable (s : List Char) : Bool :=
  !(pyStrip s).isEmpty && (pyStrip s).all floatCharOk

/-- The fate of one parsed value in `parse_output`: converted to a float
(`num` carries the numeral text), or kept as the raw string after
`float()` raised. -/
inductive Entry where
  | num (s : List Char)
  | str (s : List Char)
deriving DecidableEq

/-- The per-line body of `parse_output`: lines without `':'` or that are
banners are skipped; the line is split on the first `':'`, both halves
stripped, known unit suffixes removed, confidence-interval lines
skipped, and the remainder converted to a float when possible, kept as a
string otherwise. -/
def parse_line (line : List Char) : Option (List Char × Entry) :=
  if (':' ∈ line) ∧ occurs "===".data line = false ∧ occurs "РИЗИК".data line = false then
    let key := pyStrip (line.takeWhile (· != ':'))
    let value := strip_units (pyStrip ((line.dropWhile (· != ':')).drop 1))
    if occurs "Довірчий інтервал".data key = true then none
    else some (key, if floatParsable value = true then Entry.num value else Entry.str value)
  else none

/-- `parse_output`: the parsed entries of all lines.  (The source stores
them in a dict keyed by the line label; the association list keeps every
parsed line, which is enough to reason about any single line's entry.) -/
def parse_output (lines : List (List Char)) : List (List Char × Entry) :=
  lines.filterMap parse_line

/-! ## Lemmas about the console-line parser -/

theorem mem_of_startsWith : ∀ {p s : List Char}, startsWith p s = true → ∀ c ∈ p, c ∈ s := by
  intro p
  induction p with
  | nil =>
    intro s h c hc
    simp at hc
  | cons a as ih =>
    intro s h c hc
    cases s with
    | nil => simp [startsWith] at h
    | cons b bs =>
      simp only [startsWith, Bool.and_eq_true, beq_iff_eq] at h
      rcases List.mem_cons.1 hc with rfl | hc'
      · rw [h.1]
        exact List.mem_cons_self b bs
      · exact List.mem_cons_of_mem b (ih h.2 c hc')

theorem occurs_eq_false {p : List Char} (w : Char) (hw : w ∈ p) :
    ∀ {s : List Char}, w ∉ s → occurs p s = false := by
  intro s
  induction s with
  | nil =>
    intro _
    cases hst : startsWith p [] with
    | false => simp [occurs, hst]
    | true =>
      have := mem_of_startsWith hst w hw
      simp at this
  | cons a as ih =>
    intro hs
    simp only [occurs, Bool.or_eq_false_iff]
    refine ⟨Bool.eq_false_iff.2 fun hst => hs (mem_of_startsWith hst w hw), ?_⟩
    exact ih fun h => hs (List.mem_cons_of_mem a h)

theorem replaceAll_eq_self (p r : List Char) (w : Char) (hw : w ∈ p) :
    ∀ {s : List Char}, w ∉ s → replaceAll p r s = s := by
  intro s
  induction s with
  | nil => intro _; simp [replaceAll]
  | cons a as ih =>
    intro hs
    rw [replaceAll, dif_neg]
    · rw [ih fun h => hs (List.mem_cons_of_mem a h)]
    · rintro ⟨_, hst⟩
      exact hs (mem_of_startsWith hst w hw)

theorem takeWhile_append_all {p : Char → Bool} {l1 l2 : List Char}
    (h : ∀ c ∈ l1, p c = true) : (l1 ++ l2).takeWhile p = l1 ++ l2.takeWhile p := by
  induction l1 with
  | nil => simp
  | cons a as ih =>
    simp only [List.cons_append, List.takeWhile_cons, h a (List.mem_cons_self a as), if_true]
    rw [ih fun c hc => h c (List.mem_cons_of_mem a hc)]

theorem dropWhile_append_all {p : Char → Bool} {l1 l2 : List Char}
    (h : ∀ c ∈ l1, p c = true) : (l1 ++ l2).dropWhile p = l2.dropWhile p := by
  induction l1 with
  | nil => simp
  | cons a as ih =>
    simp only [List.cons_append, List.dropWhile_cons, h a (List.mem_cons_self a as), if_true]
    exact ih fun c hc => h c (List.mem_cons_of_mem a hc)

theorem dropWhile_head_false {p : Char → Bool} :
    ∀ {s : List Char}, (∀ c ∈ s.take 1, p c = false) → s.dropWhile p = s := by
  intro s h
  cases s with
  | nil => rfl
  | cons a as =>
    have ha := h a (by simp)
    simp [List.dropWhile_cons, ha]

theorem pyStrip_eq_self {s : List Char} (h1 : ∀ c ∈ s.take 1, isSpace c = false)
    (h2 : ∀ c ∈ s.reverse.take 1, isSpace c = false) : pyStrip s = s := by
  unfold pyStrip
  rw [dropWhile_head_false h1, dropWhile_head_false h2, List.reverse_reverse]

theorem not_space_of_numchar {c : Char} (h : isDigitChar c = true ∨ c = '.' ∨ c = '-') :
    isSpace c = false := by
  have h1 : c ≠ ' ' := by rintro rfl; rcases h with h | h | h <;> exact absurd h (by decide)
  have h2 : c ≠ '\t' := by rintro rfl; rcases h with h | h | h <;> exact absurd h (by decide)
  have h3 : c ≠ '\n' := by rintro rfl; rcases h with h | h | h <;> exact absurd h (by decide)
  have h4 : c ≠ '\r' := by rintro rfl; rcases h with h | h | h <;> exact absurd h (by decide)
  simp [isSpace, h1, h2, h3, h4]

/-- C10: `predicts.py` prints the precipitation line with the unit
`mm/month`, which is not among the suffixes `parse_output` strips, so
for every printed numeric payload the parsed entry for the precipitation
line stays a non-numeric string (the text still ending in ` mm/month`),
never a float. -/
theorem C10_precip_line_stays_string :
    ∀ ds : List Char, ds ≠ [] →
      (∀ c ∈ ds, isDigitChar c = true ∨ c = '.' ∨ c = '-') →
      unit_for "precipitation" = "mm/month" ∧
      parse_line (forecast_line "precipitation".data ds (unit_for "precipitation").data) =
        some ("🌡️  precipitation".data, Entry.str (ds ++ " mm/month".data)) := by
  intro ds hne hds
  refine ⟨rfl, ?_⟩
  have hu : (unit_for "precipitation").data = "mm/month".data := rfl
  have hsplit : forecast_line "precipitation".data ds (unit_for "precipitation").data =
      "🌡️  precipitation".data ++ ':' :: ' ' :: (ds ++ " mm/month".data) := by
    unfold forecast_line
    rw [hu]
    simp only [List.append_assoc]
    rw [show (" ".data : List Char) ++ "mm/month".data = " mm/month".data from rfl]
    rw [← List.append_assoc ("🌡️  ".data) ("precipitation".data)]
    rw [show ("🌡️  ".data : List Char) ++ "precipitation".data = "🌡️  precipitation".data
      from rfl]
    rw [show ∀ Y : List Char, (": ".data : List Char) ++ Y = ':' :: ' ' :: Y from fun Y => rfl]
  rw [hsplit]
  have hnotline : ∀ w : Char, ((isDigitChar w = true ∨ w = '.' ∨ w = '-') → False) →
      w ∉ ("🌡️  precipitation".data : List Char) → w ∉ (" mm/month".data : List Char) →
      w ≠ ':' → w ≠ ' ' →
      w ∉ "🌡️  precipitation".data ++ ':' :: ' ' :: (ds ++ " mm/month".data) := by
    intro w hw1 hw2 hw3 hw4 hw5 hmem
    rcases List.mem_append.1 hmem with h | h
    · exact hw2 h
    · rcases List.mem_cons.1 h with h | h
      · exact hw4 h
      · rcases List.mem_cons.1 h with h | h
        · exact hw5 h
        · rcases List.mem_append.1 h with h | h
          · exact hw1 (hds w h)
          · exact hw3 h
  have hcond :
      (':' ∈ "🌡️  precipitation".data ++ ':' :: ' ' :: (ds ++ " mm/month".data)) ∧
      occurs "===".data
        ("🌡️  precipitation".data ++ ':' :: ' ' :: (ds ++ " mm/month".data)) = false ∧
      occurs "РИЗИК".data
        ("🌡️  precipitation".data ++ ':' :: ' ' :: (ds ++ " mm/month".data)) = false := by
    refine ⟨List.mem_append.2 (Or.inr (List.mem_cons_self _ _)), ?_, ?_⟩
    · exact occurs_eq_false '=' (by decide)
        (hnotline '=' (by decide) (by decide) (by decide) (by decide) (by decide))
    · exact occurs_eq_false 'Р' (by decide)
        (hnotline 'Р' (by decide) (by decide) (by decide) (by decide) (by decide))
  have hpre_ne : ∀ c ∈ ("🌡️  precipitation".data : List Char), (c != ':') = true := by decide
  have htake : ("🌡️  precipitation".data ++ ':' :: ' ' :: (ds ++ " mm/month".data)).takeWhile
      (· != ':') = "🌡️  precipitation".data := by
    rw [takeWhile_append_all hpre_ne]
    rw [show (':' :: ' ' :: (ds ++ " mm/month".data)).takeWhile (· != ':') = ([] : List Char)
      from rfl]
    rw [List.append_nil]
  have hdropW : ("🌡️  precipitation".data ++ ':' :: ' ' :: (ds ++ " mm/month".data)).dropWhile
      (· != ':') = ':' :: ' ' :: (ds ++ " mm/month".data) := by
    rw [dropWhile_append_all hpre_ne]
    rfl
  have hkey : pyStrip ("🌡️  precipitation".data) = "🌡️  precipitation".data := by decide
  have hds_head : ∀ c ∈ (ds ++ " mm/month".data).take 1, isSpace c = false := by
    intro c hc
    cases ds with
    | nil => exact absurd rfl hne
    | cons d ds' =>
      simp only [List.cons_append, List.take_succ_cons, List.take_zero,
        List.mem_singleton] at hc
      subst hc
      exact not_space_of_numchar (hds c (List.mem_cons_self _ _))
  have hV_last : ∀ c ∈ (ds ++ " mm/month".data).reverse.take 1, isSpace c = false := by
    intro c hc
    rw [List.reverse_append] at hc
    rw [show ((" mm/month".data : List Char)).reverse = "htnom/mm ".data from rfl] at hc
    simp only [show ("htnom/mm ".data : List Char) = 'h' :: "tnom/mm ".data from rfl,
      List.cons_append, List.take_succ_cons, List.take_zero, List.mem_singleton] at hc
    subst hc
    decide
  have hstripV : pyStrip (ds ++ " mm/month".data) = ds ++ " mm/month".data :=
    pyStrip_eq_self hds_head hV_last
  have hvalue0 : pyStrip (' ' :: (ds ++ " mm/month".data)) = ds ++ " mm/month".data :=
    (show pyStrip (' ' :: (ds ++ " mm/month".data)) = pyStrip (ds ++ " mm/month".data)
      from rfl).trans hstripV
  have hnotV : ∀ w : Char, ((isDigitChar w = true ∨ w = '.' ∨ w = '-') → False) →
      w ∉ (" mm/month".data : List Char) → w ∉ ds ++ " mm/month".data := by
    intro w hw1 hw2 hmem
    rcases List.mem_append.1 hmem with h | h
    · exact hw1 (hds w h)
    · exact hw2 h
  have hstripU : strip_units (ds ++ " mm/month".data) = ds ++ " mm/month".data := by
    unfold strip_units units_list
    simp only [List.foldl_cons, List.foldl_nil]
    rw [replaceAll_eq_self "°C".data [] '°' (by decide)
        (hnotV '°' (by decide) (by decide)), hstripV,
      replaceAll_eq_self "mm/day".data [] 'a' (by decide)
        (hnotV 'a' (by decide) (by decide)), hstripV,
      replaceAll_eq_self "m/s".data [] 's' (by decide)
        (hnotV 's' (by decide) (by decide)), hstripV,
      replaceAll_eq_self "%".data [] '%' (by decide)
        (hnotV '%' (by decide) (by decide)), hstripV,
      replaceAll_eq_self "kg/m²".data [] 'k' (by decide)
        (hnotV 'k' (by decide) (by decide)), hstripV]
  have hfloat : floatParsable (ds ++ " mm/month".data) = false := by
    unfold floatParsable
    rw [hstripV]
    have hslash : ('/' : Char) ∈ ds ++ " mm/month".data :=
      List.mem_append.2 (Or.inr (by decide))
    have hall : (ds ++ " mm/month".data).all floatCharOk = false :=
      List.all_eq_false.2 ⟨'/', hslash, by decide⟩
    rw [hall, Bool.and_false]
  have hconf : occurs "Довірчий інтервал".data ("🌡️  precipitation".data : List Char) =
      false := by decide
  unfold parse_line
  rw [if_pos hcond]
  simp only [htake, hdropW, hkey, List.drop_succ_cons, List.drop_zero, hvalue0, hstripU,
    hconf, hfloat, Bool.false_eq_true, if_false]

/-- Witness for `C10_precip_line_stays_string`: the printed value
`123.4`. -/
theorem C10_precip_line_stays_string_witness :
    parse_line (forecast_line "precipitation".data "123.4".data
        (unit_for "precipitation").data) =
      some ("🌡️  precipitation".data, Entry.str ("123.4 mm/month".data)) :=
  (C10_precip_line_stays_string "123.4".data (by decide) (by decide)).2

end HAND
